import Mathlib

/-!
# Verification of `faust/worker.py` (lifecycle controller)

Shallow embedding of the `Worker` service of `src/faust/worker.py`.

The worker runs under a single-threaded cooperative scheduler (asyncio),
so every execution of one of its coroutine methods is a straight-line
sequence of effects: each `await x.f()` suspends until the awaited call
has completed before the next statement runs.  We therefore embed each
method as a function producing the *trace* of externally visible events
it performs, in order.  Every awaited external call is recorded as two
events — an `invoke` when the call is initiated and a `complete` when it
has finished — so that ordering claims of the form "c1's start completes
fully before c2's start is initiated" are directly expressible as
positions in the trace.
-/

namespace FaustWorker

/-- Phase of an awaited external call: the call being initiated, or the
call having run to completion (the controller awaits each call, so the
two events bracket the callee's whole execution). -/
inductive Phase where
  | invoke
  | complete
deriving DecidableEq, Repr

/-- A managed component (`ServiceT` element of `Worker.services`).
`sid` is its identity (reference identity in Python), `isApp` models
`isinstance(service, AppT)` (whether it supports sensor attachment),
`sstr` is its `str()` rendering and `srepr` its `repr()` rendering. -/
structure ServiceObj where
  sid : Nat
  isApp : Bool
  sstr : String
  srepr : String
deriving DecidableEq, Repr

instance : Inhabited ServiceObj := ⟨⟨0, false, "", ""⟩⟩

/-- Externally visible events performed by the worker's lifecycle
methods.  Sensors are identified by `Nat` as well. -/
inductive Event where
  /-- `self._setproctitle(info)`, i.e. `setproctitle('[Faust:Worker] ' + info)`. -/
  | setProcTitle (title : String)
  /-- `setup_logging(...)` from `on_first_start`. -/
  | setupLogging
  /-- `sensor.maybe_start()` (from `on_first_start`). -/
  | sensorMaybeStart (ph : Phase) (s : Nat)
  /-- `sensor.stop()` (from `on_stop`). -/
  | sensorStop (ph : Phase) (s : Nat)
  /-- `service.add_sensor(sensor)` (from `on_start`). -/
  | addSensor (ph : Phase) (svc : Nat) (s : Nat)
  /-- `service.maybe_start()` (from `on_start`). -/
  | serviceMaybeStart (ph : Phase) (svc : Nat)
  /-- `service.stop()` (from `on_stop`). -/
  | serviceStop (ph : Phase) (svc : Nat)
deriving DecidableEq, Repr

/-- `loglevel: Union[str, int]` — the two Python types the constructor
accepts for a log level. -/
inductive LogLevel where
  | int (n : Int)
  | str (s : String)
deriving DecidableEq, Repr

/-- Python truthiness of a log-level value: `0` and `''` are falsy,
everything else truthy. -/
def LogLevel.truthy : LogLevel → Bool
  | .int n => n != 0
  | .str s => s != ""

/-- Python truthiness of an optional value (`None` is falsy); this is
what `if self.loglevel:` tests. -/
def pyTruthy : Option LogLevel → Bool
  | none => false
  | some l => l.truthy

/-- The `Worker` state relevant to the lifecycle methods.  `services`
is the ordered tuple passed at construction; `sensors` models the set
`self.sensors` as a list in its (arbitrary but fixed) iteration order;
`restart_count` is inherited from the `Service` base class (0 before
any start). -/
structure Worker where
  services : List ServiceObj
  sensors : List Nat
  debug : Bool
  loglevel : Option LogLevel
  restart_count : Nat
deriving DecidableEq, Repr

/-- `PSIDENT = '[Faust:Worker]'`. -/
def PSIDENT : String := "[Faust:Worker]"

/-- `Worker._setproctitle(info)`: `setproctitle('{} {}'.format(PSIDENT, info))`. -/
def setproctitleEvent (info : String) : Event :=
  Event.setProcTitle (PSIDENT ++ " " ++ info)

/-- The trace of one awaited external call: it is initiated, runs to
completion (its internals are opaque), and only then does the caller
resume. -/
def awaited (mk : Phase → Event) : List Event :=
  [mk Phase.invoke, mk Phase.complete]

/-- Body of the `for service in self.services:` loop of
`Worker.on_start`: attach every sensor if the service is an `AppT`,
set the process title to `running`, then await `service.maybe_start()`. -/
def startService (sensors : List Nat) (service : ServiceObj) : List Event :=
  (sensors.flatMap fun sensor =>
    if service.isApp then awaited (Event.addSensor · service.sid sensor) else [])
  ++ [setproctitleEvent "running"]
  ++ awaited (Event.serviceMaybeStart · service.sid)

/-- `Worker.on_start`: set the process title to `starting`, then run the
per-service loop over `self.services` in order. -/
def Worker.on_start (w : Worker) : List Event :=
  setproctitleEvent "starting" :: w.services.flatMap (startService w.sensors)

/-- `Worker.on_stop`: set the process title to `stopping`, await
`service.stop()` for each service in `reversed(self.services)`, then
await `sensor.stop()` for each sensor. -/
def Worker.on_stop (w : Worker) : List Event :=
  setproctitleEvent "stopping"
    :: (w.services.reverse.flatMap fun service => awaited (Event.serviceStop · service.sid))
    ++ w.sensors.flatMap fun sensor => awaited (Event.sensorStop · sensor)

/-- `Worker.on_first_start`: call `setup_logging(...)` if `self.loglevel`
is truthy, then await `sensor.maybe_start()` for every sensor. -/
def Worker.on_first_start (w : Worker) : List Event :=
  (if pyTruthy w.loglevel then [Event.setupLogging] else [])
    ++ w.sensors.flatMap fun sensor => awaited (Event.sensorMaybeStart · sensor)

/-- Modelled from the spec: `Service.start` of the base class
(`faust/utils/services.py`, not part of the fragment) performs the
general start bookkeeping — it increments the restart counter (spec §3:
"a restart counter (0 before any start, incremented on each completed
start cycle)") and invokes the `on_start` callback. -/
def superStart (w : Worker) : List Event × Worker :=
  (w.on_start, { w with restart_count := w.restart_count + 1 })

/-- `Worker.start`: `if not self.restart_count: await self.on_first_start()`
followed by `await super().start()`.  (`not n` is true in Python exactly
when the integer `n` is 0.) -/
def Worker.start (w : Worker) : List Event × Worker :=
  let pre := if w.restart_count = 0 then w.on_first_start else []
  let (t, w2) := superStart w
  (pre ++ t, w2)

/-- Iterated calls to `Worker.start`, collecting each call's trace. -/
def startN (w : Worker) : Nat → List (List Event)
  | 0 => []
  | n + 1 =>
    let (t, w2) := w.start
    t :: startN w2 n

/-- Whether a single `Worker.start` call runs the one-time
initialization path (`on_first_start`): the source gates it on
`not self.restart_count`. -/
def runsFirstStart (w : Worker) : Bool :=
  w.restart_count = 0

/-- How many of `n` successive `Worker.start` calls run the one-time
initialization path. -/
def firstStartCount (w : Worker) : Nat → Nat
  | 0 => 0
  | n + 1 => (if runsFirstStart w then 1 else 0) + firstStartCount w.start.2 n

/-! ## Fallible teardown (`on_stop` when a `stop()` call may raise)

Python exceptions are modelled by `PyErr`; an awaited call that raises
produces its `invoke` event but no `complete` event, and the raised
exception propagates out of `on_stop` unchanged (there is no
`try`/`except` in `Worker.on_stop`). -/

/-- Python exception classes occurring in the worker's control flow. -/
inductive PyErr where
  | runtimeError
  | systemExit
  | other (n : Nat)
deriving DecidableEq, Repr

/-- The `for service in reversed(self.services):` loop of
`Worker.on_stop` when each `service.stop()` may raise (`env` gives the
outcome of each service's `stop`): the loop aborts at the first raise
and the exception propagates verbatim.  The argument list is the
already-reversed service list. -/
def stopServicesE (env : Nat → Option PyErr) : List ServiceObj → List Event × Option PyErr
  | [] => ([], none)
  | c :: rest =>
    match env c.sid with
    | some e => ([Event.serviceStop Phase.invoke c.sid], some e)
    | none =>
      let (t, r) := stopServicesE env rest
      (awaited (Event.serviceStop · c.sid) ++ t, r)

/-- The `for sensor in self.sensors:` loop of `Worker.on_stop` when each
`sensor.stop()` may raise (`env` gives the outcome of each sensor's
`stop`). -/
def stopSensorsE (env : Nat → Option PyErr) : List Nat → List Event × Option PyErr
  | [] => ([], none)
  | s :: rest =>
    match env s with
    | some e => ([Event.sensorStop Phase.invoke s], some e)
    | none =>
      let (t, r) := stopSensorsE env rest
      (awaited (Event.sensorStop · s) ++ t, r)

/-- `Worker.on_stop` under fallible `stop()` calls: the trace of events
that actually happened, and the exception (if any) propagating to the
caller.  Once a service's `stop` raises, the remaining services and all
sensors are skipped. -/
def Worker.on_stopE (w : Worker) (svcEnv senEnv : Nat → Option PyErr) :
    List Event × Option PyErr :=
  let (t1, r1) := stopServicesE svcEnv w.services.reverse
  match r1 with
  | some e => (setproctitleEvent "stopping" :: t1, some e)
  | none =>
    let (t2, r2) := stopSensorsE senEnv w.sensors
    (setproctitleEvent "stopping" :: t1 ++ t2, r2)

/-! ## Signal bridge (`install_signal_handlers` / `_on_sigint` /
`_stop_on_signal`)

`_on_sigint` runs as a callback of the already-running event loop.  Its
body prints a marker, schedules `_stop_on_signal()` with
`asyncio.ensure_future` (the task will run later, when the loop gets
back control), and calls `loop.run_until_complete` on it, which raises
`RuntimeError` because the loop is already running; that `RuntimeError`
— and only `RuntimeError` — is caught by the `except RuntimeError: pass`
clause. -/

/-- The `try`/`except RuntimeError: pass` boundary of `Worker._on_sigint`
applied to the outcome of the `run_until_complete(...)` call inside it:
a raised `RuntimeError` is swallowed, any other outcome passes through. -/
def sigintExceptClause (body : Except PyErr Unit) : Except PyErr Unit :=
  match body with
  | Except.error PyErr.runtimeError => Except.ok ()
  | r => r

/-- State of the cooperative scheduler as seen by the signal bridge:
whether the event loop is currently running, the worker's stop latch
(`Service.stop` one-way flag, see `latchStop`), the number of scheduled
`_stop_on_signal` tasks not yet run, and how many completed shutdown
sequences (actual teardowns) have been observed. -/
structure LoopState where
  running : Bool
  stopped : Bool
  pending : Nat
  completedShutdowns : Nat
deriving DecidableEq, Repr

/-- Modelled from the spec: `Service.stop` of the base class
(`faust/utils/services.py`, not part of the fragment) treats the stop
flag as a one-way latch (spec §3: "a stop flag (false → true, monotonic
per run, never reset)"; §4.2: "only one shutdown sequence is
meaningfully observable"): a second `stop()` finds the latch already
set and performs no second teardown. -/
def latchStop (st : LoopState) : LoopState :=
  if st.stopped then st
  else { st with stopped := true, completedShutdowns := st.completedShutdowns + 1 }

/-- One scheduled `_stop_on_signal()` task runs: it awaits
`self.stop()` (the latch) and then closes the loop and raises
`SystemExit` inside the task. -/
def runStopTask (st : LoopState) : LoopState :=
  { latchStop st with pending := st.pending - 1 }

/-- `Worker._on_sigint`: print the marker, schedule `_stop_on_signal()`
via `ensure_future` (one more pending task), then call
`run_until_complete` on it — which raises `RuntimeError` when the loop
is already running — inside the `except RuntimeError` boundary.
Returns the new scheduler state and the outcome escaping the handler. -/
def onSigint (st : LoopState) : LoopState × Except PyErr Unit :=
  let st1 := { st with pending := st.pending + 1 }
  let body : Except PyErr Unit :=
    if st1.running then Except.error PyErr.runtimeError else Except.ok ()
  (st1, sigintExceptClause body)

/-! ## Diagnostic representation (`_TupleAsListRepr` and `_stats`)

`_repr = _TupleAsListRepr().repr`, where `_TupleAsListRepr` subclasses
the standard library's `reprlib.Repr` overriding `repr_tuple` to call
`repr_list`.  We embed the relevant path of `reprlib.Repr`: `repr(x)`
dispatches at `maxlevel` on the type of `x`; element objects are
rendered by `repr_instance` (their `repr()` truncated to `maxother`
characters); lists and tuples are rendered by `_repr_iterable` with
brackets `[`/`]` (limit `maxlist`, no trailing mark) and `(`/`)` (limit
`maxtuple`, trailing `,` when the tuple has one element) respectively. -/

/-- `reprlib.Repr.maxlevel` default. -/
def maxlevel : Int := 6

/-- `reprlib.Repr.maxlist` / `maxtuple` default. -/
def maxiterDefault : Nat := 6

/-- `reprlib.Repr.maxother` default. -/
def maxother : Nat := 30

/-- `reprlib.Repr.repr_instance`: the object's `repr()` string,
truncated around the middle when longer than `maxother`. -/
def reprInstance (s : String) : String :=
  if s.length > maxother then
    let i := (maxother - 3) / 2
    let j := maxother - 3 - i
    (s.take i) ++ "..." ++ (s.drop (s.length - j))
  else s

/-- `reprlib.Repr._repr_iterable` on a sequence whose elements render to
`elts` (each already rendered at `level - 1`): at non-positive level a
non-empty sequence collapses to `...`; otherwise the first `maxiter`
renderings are joined with `, ` (plus a final `...` piece when
truncated), and `trail` is appended before the closing bracket for
one-element sequences. -/
def reprIterable (elts : List String) (level : Int) (left right : String)
    (maxiter : Nat) (trail : String) : String :=
  if level ≤ 0 ∧ elts.length ≠ 0 then left ++ "..." ++ right
  else
    let pieces := elts.take maxiter ++ (if elts.length > maxiter then ["..."] else [])
    let right2 := if elts.length = 1 ∧ trail ≠ "" then trail ++ right else right
    left ++ String.intercalate ", " pieces ++ right2

/-- `reprlib.Repr.repr_list`. -/
def reprList (elts : List String) (level : Int) : String :=
  reprIterable elts level "[" "]" maxiterDefault ""

/-- `reprlib.Repr.repr_tuple` as inherited from `reprlib.Repr` (what the
rendering would be without the override). -/
def baseReprTuple (elts : List String) (level : Int) : String :=
  reprIterable elts level "(" ")" maxiterDefault ","

/-- `_TupleAsListRepr.repr_tuple` (the override in `faust/worker.py`):
`return self.repr_list(x, level)`. -/
def tupleAsListReprTuple (elts : List String) (level : Int) : String :=
  reprList elts level

/-- `_repr(self.services)`: the services tuple dispatches to the
overridden `repr_tuple` at `maxlevel`, each element service rendered by
`repr_instance` at the inner level. -/
def servicesRepr (services : List ServiceObj) : String :=
  tupleAsListReprTuple (services.map fun s => reprInstance s.srepr) maxlevel

/-- The status line printed by one iteration of `Worker._stats`:
`print(self.services[0])` (the component's `str()`) when exactly one
service is managed, `print(_repr(self.services))` otherwise. -/
def statsLine (w : Worker) : String :=
  if w.services.length = 1 then (w.services.headD default).sstr
  else servicesRepr w.services

/-- `Worker._stats`: `while not self.should_stop: await asyncio.sleep(5);
print(...)`.  `flag t` is the value of `self.should_stop` (the stop
latch) at time `t`; each iteration observes the flag, and if it is
false sleeps 5 time-units and prints one status line; `fuel` bounds the
number of iterations we unfold.  Returns the timestamped lines printed
and whether the loop exited by observing the flag true (rather than by
running out of fuel). -/
def statsRun (w : Worker) (flag : Nat → Bool) : Nat → Nat → List (Nat × String) × Bool
  | 0, _ => ([], false)
  | fuel + 1, t =>
    if flag t then ([], true)
    else
      ((t + 5, statsLine w) :: (statsRun w flag fuel (t + 5)).1,
       (statsRun w flag fuel (t + 5)).2)

/-! ## Projections of traces used by the ordering theorems -/

/-- Project a trace event to the component `maybe_start` call it
records, if any. -/
def maybeStartProj : Event → Option (Phase × Nat)
  | .serviceMaybeStart ph i => some (ph, i)
  | _ => none

/-- Target of a `stop()` call recorded in a trace: a component or a
sensor. -/
inductive StopTarget where
  | svc (i : Nat)
  | sensor (s : Nat)
deriving DecidableEq, Repr

/-- Project a trace event to the `stop()` call it records, if any. -/
def stopProj : Event → Option (Phase × StopTarget)
  | .serviceStop ph i => some (ph, StopTarget.svc i)
  | .sensorStop ph s => some (ph, StopTarget.sensor s)
  | _ => none

/-- Project a trace event to what it does *to the component with id
`i`*: `some (ph, some s)` for `add_sensor(s)` calls on it, and
`some (ph, none)` for its `maybe_start` call. -/
def aboutService (i : Nat) : Event → Option (Phase × Option Nat)
  | .addSensor ph svc s => if svc = i then some (ph, some s) else none
  | .serviceMaybeStart ph svc => if svc = i then some (ph, none) else none
  | _ => none

lemma maybeStartProj_startService (sensors : List Nat) (c : ServiceObj) :
    (startService sensors c).filterMap maybeStartProj
      = [(Phase.invoke, c.sid), (Phase.complete, c.sid)] := by
  simp only [startService, awaited, List.filterMap_append]
  have h : (sensors.flatMap fun sensor =>
      if c.isApp then [Event.addSensor Phase.invoke c.sid sensor,
                       Event.addSensor Phase.complete c.sid sensor]
      else []).filterMap maybeStartProj = [] := by
    induction sensors with
    | nil => simp
    | cons s rest ih =>
      simp only [List.flatMap_cons, List.filterMap_append, ih]
      cases c.isApp <;> simp [maybeStartProj]
  simp [h, maybeStartProj, setproctitleEvent]

lemma filterMap_nil_of_none {α β : Type} (f : α → Option β) (l : List α)
    (h : ∀ a ∈ l, f a = none) : l.filterMap f = [] := by
  induction l with
  | nil => rfl
  | cons a t ih =>
    rw [List.filterMap_cons, h a (by simp)]
    exact ih fun b hb => h b (by simp [hb])

lemma maybeStartProj_on_first_start (w : Worker) :
    w.on_first_start.filterMap maybeStartProj = [] := by
  rw [Worker.on_first_start, List.filterMap_append]
  have h1 : (if pyTruthy w.loglevel then [Event.setupLogging]
      else []).filterMap maybeStartProj = [] := by
    split <;> rfl
  have h2 : (w.sensors.flatMap fun sensor =>
      awaited (Event.sensorMaybeStart · sensor)).filterMap maybeStartProj = [] := by
    refine filterMap_nil_of_none _ _ fun a ha => ?_
    simp only [awaited, List.mem_flatMap, List.mem_cons, List.not_mem_nil,
      or_false] at ha
    obtain ⟨s, -, h | h⟩ := ha <;> (subst h; rfl)
  rw [h1, h2]
  rfl

lemma maybeStartProj_services (sensors : List Nat) (l : List ServiceObj) :
    (l.flatMap (startService sensors)).filterMap maybeStartProj
      = l.flatMap fun c => [(Phase.invoke, c.sid), (Phase.complete, c.sid)] := by
  induction l with
  | nil => simp
  | cons c rest ih =>
    simp only [List.flatMap_cons, List.filterMap_append, ih,
      maybeStartProj_startService]

lemma maybeStartProj_on_start (w : Worker) :
    w.on_start.filterMap maybeStartProj
      = w.services.flatMap fun c => [(Phase.invoke, c.sid), (Phase.complete, c.sid)] := by
  rw [Worker.on_start, List.filterMap_cons_none, maybeStartProj_services]
  rfl

/-- **C1.** For every component sequence held by the controller,
`start()` invokes each component's `maybe_start` strictly in list
order: the component `maybe_start` events of the `start()` trace are
exactly, in order, an `invoke` immediately followed by a `complete`
for `c1`, then for `c2`, and so on — so each `maybe_start` completes
fully before the next one is initiated. -/
theorem start_invokes_maybe_start_in_list_order (w : Worker) :
    w.start.1.filterMap maybeStartProj
      = w.services.flatMap fun c => [(Phase.invoke, c.sid), (Phase.complete, c.sid)] := by
  simp only [Worker.start, superStart, List.filterMap_append]
  have h1 : (if w.restart_count = 0 then w.on_first_start else []).filterMap
      maybeStartProj = [] := by
    split
    · exact maybeStartProj_on_first_start w
    · simp
  rw [h1, maybeStartProj_on_start]
  simp

/-- **C2.** `stop()` (via its `on_stop` callback) stops components in
exactly the reverse of start order — the `stop` events of the trace are
exactly an `invoke`/`complete` pair for `cn`, then for `c_(n-1)`, …,
ending with `c1` — and every sensor's `stop` pair comes after all
component stop pairs have completed. -/
theorem stop_reverse_order_then_sensors (w : Worker) :
    w.on_stop.filterMap stopProj
      = (w.services.reverse.flatMap fun c =>
          [(Phase.invoke, StopTarget.svc c.sid), (Phase.complete, StopTarget.svc c.sid)])
        ++ w.sensors.flatMap fun s =>
          [(Phase.invoke, StopTarget.sensor s), (Phase.complete, StopTarget.sensor s)] := by
  have h1 : ∀ l : List ServiceObj,
      (l.flatMap fun service =>
        awaited (Event.serviceStop · service.sid)).filterMap stopProj
      = l.flatMap fun c =>
          [(Phase.invoke, StopTarget.svc c.sid), (Phase.complete, StopTarget.svc c.sid)] := by
    intro l
    induction l with
    | nil => rfl
    | cons c rest ih =>
      rw [List.flatMap_cons, List.filterMap_append, ih, List.flatMap_cons]
      rfl
  have h2 : ∀ l : List Nat,
      (l.flatMap fun sensor => awaited (Event.sensorStop · sensor)).filterMap stopProj
      = l.flatMap fun s =>
          [(Phase.invoke, StopTarget.sensor s), (Phase.complete, StopTarget.sensor s)] := by
    intro l
    induction l with
    | nil => rfl
    | cons s rest ih =>
      rw [List.flatMap_cons, List.filterMap_append, ih, List.flatMap_cons]
      rfl
  rw [Worker.on_stop, List.cons_append, List.filterMap_cons_none,
    List.filterMap_append, h1, h2]
  rfl

lemma aboutService_awaited_ms (d : ServiceObj) (i : Nat) :
    (awaited (Event.serviceMaybeStart · d.sid)).filterMap (aboutService i)
      = if d.sid = i then [(Phase.invoke, (none : Option Nat)), (Phase.complete, none)]
        else [] := by
  by_cases h : d.sid = i <;> simp [awaited, aboutService, h]

lemma aboutService_attach (sensors : List Nat) (d : ServiceObj) (i : Nat) :
    ((sensors.flatMap fun sensor =>
        if d.isApp then awaited (Event.addSensor · d.sid sensor) else []).filterMap
      (aboutService i))
      = if d.sid = i ∧ d.isApp = true then
          sensors.flatMap fun s => [(Phase.invoke, some s), (Phase.complete, some s)]
        else [] := by
  induction sensors with
  | nil => simp
  | cons s rest ih =>
    rw [List.flatMap_cons, List.filterMap_append, ih]
    by_cases happ : d.isApp = true <;> by_cases hsd : d.sid = i <;>
      simp [awaited, aboutService, happ, hsd]

lemma aboutService_startService (sensors : List Nat) (d : ServiceObj) (i : Nat) :
    (startService sensors d).filterMap (aboutService i)
      = if d.sid = i then
          (if d.isApp = true then
            sensors.flatMap fun s => [(Phase.invoke, some s), (Phase.complete, some s)]
          else [])
          ++ [(Phase.invoke, none), (Phase.complete, none)]
        else [] := by
  rw [startService, List.filterMap_append, List.filterMap_append,
    aboutService_attach, aboutService_awaited_ms]
  have hsp : ([setproctitleEvent "running"]).filterMap (aboutService i) = [] := rfl
  rw [hsp]
  by_cases happ : d.isApp = true <;> by_cases hsd : d.sid = i <;>
    simp [happ, hsd]

lemma aboutService_flatMap_ne (sensors : List Nat) (i : Nat) (l : List ServiceObj)
    (hnot : ∀ d ∈ l, d.sid ≠ i) :
    (l.flatMap (startService sensors)).filterMap (aboutService i) = [] := by
  induction l with
  | nil => rfl
  | cons d rest ih =>
    rw [List.flatMap_cons, List.filterMap_append, aboutService_startService,
      if_neg (hnot d (by simp)), ih fun b hb => hnot b (by simp [hb])]
    rfl

lemma aboutService_on_first_start (w : Worker) (i : Nat) :
    w.on_first_start.filterMap (aboutService i) = [] := by
  rw [Worker.on_first_start, List.filterMap_append]
  have h1 : (if pyTruthy w.loglevel then [Event.setupLogging]
      else []).filterMap (aboutService i) = [] := by
    split <;> rfl
  have h2 : (w.sensors.flatMap fun sensor =>
      awaited (Event.sensorMaybeStart · sensor)).filterMap (aboutService i) = [] := by
    refine filterMap_nil_of_none _ _ fun a ha => ?_
    simp only [awaited, List.mem_flatMap, List.mem_cons, List.not_mem_nil,
      or_false] at ha
    obtain ⟨s, -, h | h⟩ := ha <;> (subst h; rfl)
  rw [h1, h2]
  rfl

lemma aboutService_services_mem (sensors : List Nat) (l : List ServiceObj)
    (hnd : (l.map (·.sid)).Nodup) (c : ServiceObj) (hc : c ∈ l)
    (happ : c.isApp = true) :
    (l.flatMap (startService sensors)).filterMap (aboutService c.sid)
      = (sensors.flatMap fun s => [(Phase.invoke, some s), (Phase.complete, some s)])
        ++ [(Phase.invoke, none), (Phase.complete, none)] := by
  induction l with
  | nil => cases hc
  | cons d rest ih =>
    simp only [List.map_cons, List.nodup_cons] at hnd
    rw [List.flatMap_cons, List.filterMap_append, aboutService_startService]
    rcases List.mem_cons.1 hc with rfl | hmem
    · rw [if_pos rfl, if_pos happ]
      have hrest : ∀ b ∈ rest, b.sid ≠ c.sid := by
        intro b hb he
        exact hnd.1 (by rw [← he]; exact List.mem_map_of_mem _ hb)
      rw [aboutService_flatMap_ne _ _ _ hrest, List.append_nil]
    · have hd : d.sid ≠ c.sid := by
        intro he
        exact hnd.1 (by rw [he]; exact List.mem_map_of_mem _ hmem)
      rw [if_neg hd, List.nil_append, ih hnd.2 hmem]

/-- **C3.** For every component that supports sensor attachment
(`isinstance(service, AppT)`) and every sensor of the controller, the
`add_sensor` call attaching that sensor to that component completes
before that component's `maybe_start` is invoked: projected onto any
such component, the `start()` trace is exactly the complete
`invoke`/`complete` pair of `add_sensor` for every sensor (in sensor
iteration order), all before the component's `maybe_start` pair; and
this holds for every attachment-supporting component of the sequence. -/
theorem sensors_attached_before_component_start (w : Worker)
    (hnd : (w.services.map (·.sid)).Nodup)
    (c : ServiceObj) (hc : c ∈ w.services) (happ : c.isApp = true) :
    w.start.1.filterMap (aboutService c.sid)
      = (w.sensors.flatMap fun s => [(Phase.invoke, some s), (Phase.complete, some s)])
        ++ [(Phase.invoke, none), (Phase.complete, none)] := by
  show ((if w.restart_count = 0 then w.on_first_start else [])
      ++ (superStart w).1).filterMap (aboutService c.sid) = _
  rw [List.filterMap_append]
  have h1 : (if w.restart_count = 0 then w.on_first_start
      else []).filterMap (aboutService c.sid) = [] := by
    split
    · exact aboutService_on_first_start w c.sid
    · rfl
  have h2 : (superStart w).1.filterMap (aboutService c.sid)
      = (w.sensors.flatMap fun s => [(Phase.invoke, some s), (Phase.complete, some s)])
        ++ [(Phase.invoke, none), (Phase.complete, none)] := by
    show (Worker.on_start w).filterMap (aboutService c.sid) = _
    rw [Worker.on_start, List.filterMap_cons_none rfl]
    exact aboutService_services_mem w.sensors w.services hnd c hc happ
  rw [h1, h2, List.nil_append]

/-- Concrete controller used to witness C3: one attachment-supporting
component and one sensor. -/
def workerC3 : Worker :=
  { services := [⟨1, true, "app", "app"⟩], sensors := [7], debug := false,
    loglevel := none, restart_count := 0 }

/-- Witness for C3 at a concrete controller. -/
theorem sensors_attached_before_component_start_witness :
    ((workerC3.services.map (·.sid)).Nodup
      ∧ (⟨1, true, "app", "app"⟩ : ServiceObj) ∈ workerC3.services
      ∧ (⟨1, true, "app", "app"⟩ : ServiceObj).isApp = true)
    ∧ workerC3.start.1.filterMap (aboutService 1)
      = (workerC3.sensors.flatMap fun s =>
          [(Phase.invoke, some s), (Phase.complete, some s)])
        ++ [(Phase.invoke, none), (Phase.complete, none)] :=
  ⟨⟨by decide, by decide, by decide⟩,
    sensors_attached_before_component_start workerC3 (by decide)
      ⟨1, true, "app", "app"⟩ (by decide) (by decide)⟩

/-- **C4.** The one-time initialization path (`on_first_start`:
configure logging if a level was supplied, then `maybe_start` every
sensor) is run by a `start()` call if and only if the restart counter
is zero, and across any number `n ≥ 1` of successive `start()` calls it
runs exactly once when the controller begins at restart counter zero
(and never when it begins with a nonzero counter). -/
theorem first_start_runs_exactly_once (w : Worker) (n : Nat) :
    w.start.1 = (if w.restart_count = 0 then w.on_first_start else []) ++ w.on_start
    ∧ firstStartCount w n = if w.restart_count = 0 ∧ n ≠ 0 then 1 else 0 := by
  constructor
  · rfl
  · induction n generalizing w with
    | zero => simp [firstStartCount]
    | succ n ih =>
      rw [firstStartCount, ih]
      have hw2 : w.start.2.restart_count = w.restart_count + 1 := rfl
      rw [hw2]
      by_cases h : w.restart_count = 0 <;> simp [runsFirstStart, h]

/-- **C5.** Delivering the termination signal twice in quick succession
(both deliveries arriving while the event loop is running, before the
scheduled shutdown tasks have run) leaves both handler invocations
returning normally — in particular no exception from the second
delivery's scheduling attempt escapes the handler — and running both
scheduled shutdown tasks completes at most one shutdown sequence. -/
theorem double_signal_one_shutdown (st : LoopState)
    (hrun : st.running = true) (hstop : st.stopped = false)
    (hcnt : st.completedShutdowns = 0) :
    (onSigint st).2 = Except.ok ()
    ∧ (onSigint (onSigint st).1).2 = Except.ok ()
    ∧ (runStopTask (runStopTask (onSigint (onSigint st).1).1)).completedShutdowns ≤ 1 := by
  obtain ⟨r, s, p, n⟩ := st
  simp only at hrun hstop hcnt
  subst hrun hstop hcnt
  exact ⟨rfl, rfl, Nat.le_refl 1⟩

/-- Concrete scheduler state used to witness C5. -/
def loopStateC5 : LoopState :=
  { running := true, stopped := false, pending := 0, completedShutdowns := 0 }

/-- Witness for C5 at a concrete scheduler state. -/
theorem double_signal_one_shutdown_witness :
    (loopStateC5.running = true ∧ loopStateC5.stopped = false
      ∧ loopStateC5.completedShutdowns = 0)
    ∧ ((onSigint loopStateC5).2 = Except.ok ()
      ∧ (onSigint (onSigint loopStateC5).1).2 = Except.ok ()
      ∧ (runStopTask (runStopTask
          (onSigint (onSigint loopStateC5).1).1)).completedShutdowns ≤ 1) :=
  ⟨⟨rfl, rfl, rfl⟩, double_signal_one_shutdown loopStateC5 rfl rfl rfl⟩

/-- **C6.** The `except RuntimeError: pass` boundary of `_on_sigint`
suppresses exactly the re-entrant-scheduling rejection (`RuntimeError`)
from the `run_until_complete` call: that error yields a normal return,
while any other exception class raised by the same call surfaces out of
the handler unchanged. -/
theorem sigint_suppresses_only_runtime_error (e : PyErr)
    (h : e ≠ PyErr.runtimeError) :
    sigintExceptClause (Except.error PyErr.runtimeError) = Except.ok ()
    ∧ sigintExceptClause (Except.error e) = Except.error e := by
  refine ⟨rfl, ?_⟩
  cases e with
  | runtimeError => exact absurd rfl h
  | systemExit => rfl
  | other n => rfl

/-- Witness for C6: a `SystemExit` raised by the scheduling call is not
suppressed. -/
theorem sigint_suppresses_only_runtime_error_witness :
    PyErr.systemExit ≠ PyErr.runtimeError
    ∧ (sigintExceptClause (Except.error PyErr.runtimeError) = Except.ok ()
      ∧ sigintExceptClause (Except.error PyErr.systemExit)
          = Except.error PyErr.systemExit) :=
  ⟨by decide, sigint_suppresses_only_runtime_error PyErr.systemExit (by decide)⟩

lemma stopServicesE_fail (env : Nat → Option PyErr) (pre : List ServiceObj)
    (c : ServiceObj) (post : List ServiceObj) (e : PyErr)
    (hok : ∀ d ∈ pre, env d.sid = none) (hfail : env c.sid = some e) :
    stopServicesE env (pre ++ c :: post)
      = ((pre.flatMap fun d => awaited (Event.serviceStop · d.sid))
          ++ [Event.serviceStop Phase.invoke c.sid], some e) := by
  induction pre with
  | nil =>
    rw [List.nil_append, stopServicesE, hfail]
    rfl
  | cons d rest ih =>
    rw [List.cons_append, stopServicesE, hok d (by simp),
      ih fun b hb => hok b (by simp [hb]), List.flatMap_cons, List.append_assoc]

/-- **C7.** During teardown, once a component's `stop()` raises, the
remaining reverse-order component stops and all sensor stops are
skipped, and the exception propagates verbatim to the caller: if the
services before `c` in reverse order stop cleanly and `c`'s stop raises
`e`, the `on_stop` trace consists of the "stopping" title, the complete
stop pairs of exactly the reverse-order predecessors, and `c`'s stop
`invoke` with no `complete` — no later component stop and no sensor
stop appears — and the propagated error is `e` itself. -/
theorem stop_failure_fail_fast (w : Worker) (svcEnv senEnv : Nat → Option PyErr)
    (pre : List ServiceObj) (c : ServiceObj) (post : List ServiceObj) (e : PyErr)
    (hsplit : w.services.reverse = pre ++ c :: post)
    (hok : ∀ d ∈ pre, svcEnv d.sid = none) (hfail : svcEnv c.sid = some e) :
    w.on_stopE svcEnv senEnv
      = (setproctitleEvent "stopping"
          :: ((pre.flatMap fun d => awaited (Event.serviceStop · d.sid))
            ++ [Event.serviceStop Phase.invoke c.sid]),
        some e) := by
  simp only [Worker.on_stopE]
  rw [hsplit, stopServicesE_fail svcEnv pre c post e hok hfail]

/-- Concrete controller used to witness C7: three components, stop of
the middle one (in reverse order) raises. -/
def workerC7 : Worker :=
  { services := [⟨1, false, "a", "a"⟩, ⟨2, false, "b", "b"⟩, ⟨3, false, "c", "c"⟩],
    sensors := [9], debug := false, loglevel := none, restart_count := 1 }

/-- Stop outcomes used to witness C7: service 2's `stop()` raises. -/
def svcEnvC7 : Nat → Option PyErr :=
  fun n => if n = 2 then some (PyErr.other 5) else none

/-- Witness for C7 at a concrete controller and failing stop. -/
theorem stop_failure_fail_fast_witness :
    (workerC7.services.reverse
        = [⟨3, false, "c", "c"⟩] ++ (⟨2, false, "b", "b"⟩ : ServiceObj) :: [⟨1, false, "a", "a"⟩]
      ∧ (∀ d ∈ [(⟨3, false, "c", "c"⟩ : ServiceObj)], svcEnvC7 d.sid = none)
      ∧ svcEnvC7 (⟨2, false, "b", "b"⟩ : ServiceObj).sid = some (PyErr.other 5))
    ∧ workerC7.on_stopE svcEnvC7 (fun _ => none)
      = (setproctitleEvent "stopping"
          :: (([(⟨3, false, "c", "c"⟩ : ServiceObj)].flatMap fun d =>
              awaited (Event.serviceStop · d.sid))
            ++ [Event.serviceStop Phase.invoke (⟨2, false, "b", "b"⟩ : ServiceObj).sid]),
        some (PyErr.other 5)) :=
  ⟨⟨by decide, by decide, by decide⟩,
    stop_failure_fail_fast workerC7 svcEnvC7 (fun _ => none)
      [⟨3, false, "c", "c"⟩] ⟨2, false, "b", "b"⟩ [⟨1, false, "a", "a"⟩]
      (PyErr.other 5) (by decide) (by decide) (by decide)⟩

/-- **C8.** Each periodic status report renders the single component
directly (its own `str()`) when exactly one component is managed;
otherwise it renders the ordered collection through `_repr`, in which
the overridden `repr_tuple` is exactly `repr_list`, so a fixed-arity
grouping (tuple) and a variable-length collection (list) are rendered
identically (list-like, `[...]`-bracketed). -/
theorem stats_single_direct_multi_list (w : Worker) :
    (∀ s : ServiceObj, w.services = [s] → statsLine w = s.sstr)
    ∧ (w.services.length ≠ 1 → statsLine w = servicesRepr w.services)
    ∧ (∀ elts level, tupleAsListReprTuple elts level = reprList elts level) := by
  refine ⟨?_, ?_, fun _ _ => rfl⟩
  · intro s hs
    simp [statsLine, hs]
  · intro h
    rw [statsLine, if_neg h]

/-- Concrete controller used to witness C8: two managed components. -/
def workerC8 : Worker :=
  { services := [⟨1, false, "A", "reprA"⟩, ⟨2, false, "B", "reprB"⟩],
    sensors := [], debug := false, loglevel := none, restart_count := 0 }

/-- Witness for C8 at a concrete two-component controller. -/
theorem stats_single_direct_multi_list_witness :
    workerC8.services.length ≠ 1
    ∧ statsLine workerC8 = servicesRepr workerC8.services :=
  ⟨by decide, (stats_single_direct_multi_list workerC8).2.1 (by decide)⟩

/-- **C9.** The Status Reporter loop terminates as soon as the stop flag
becomes true, and within one reporting interval of the flag flipping:
if the (monotone, one-way latch) flag is true at time `T` and the loop
is given enough iterations, it exits by observing the flag, every
status line it prints is stamped strictly before `T + 5`, and its trace
contains nothing but those status lines; moreover an iteration that
observes the flag true emits no status line at all. -/
theorem stats_reporter_exits_on_stop_flag (w : Worker) (flag : Nat → Bool)
    (fuel t0 T : Nat)
    (hmono : ∀ a b, a ≤ b → flag a = true → flag b = true)
    (hT : flag T = true) (hfuel : T - t0 < fuel) :
    (statsRun w flag fuel t0).2 = true
    ∧ (∀ p ∈ (statsRun w flag fuel t0).1, p.1 < T + 5 ∧ p.2 = statsLine w)
    ∧ (∀ f t, flag t = true → (statsRun w flag f t).1 = []) := by
  have hmain : ∀ fuel t0, T - t0 < fuel →
      (statsRun w flag fuel t0).2 = true
      ∧ (∀ p ∈ (statsRun w flag fuel t0).1, p.1 < T + 5 ∧ p.2 = statsLine w) := by
    intro fuel
    induction fuel with
    | zero => intro t0 h; omega
    | succ f ih =>
      intro t0 h
      by_cases hf : flag t0 = true
      · rw [statsRun, if_pos hf]
        exact ⟨rfl, fun p hp => absurd hp (List.not_mem_nil p)⟩
      · have ht0 : t0 < T := by
          rcases Nat.lt_or_ge t0 T with h1 | h1
          · exact h1
          · exact absurd (hmono T t0 h1 hT) hf
        rw [statsRun, if_neg hf]
        obtain ⟨h1, h2⟩ := ih (t0 + 5) (by omega)
        refine ⟨h1, fun p hp => ?_⟩
        rcases List.mem_cons.1 hp with rfl | hp2
        · exact ⟨by omega, rfl⟩
        · exact h2 p hp2
  refine ⟨(hmain fuel t0 hfuel).1, (hmain fuel t0 hfuel).2, fun f t ht => ?_⟩
  cases f with
  | zero => rfl
  | succ f => rw [statsRun, if_pos ht]

/-- Concrete controller used to witness C9. -/
def workerC9 : Worker :=
  { services := [⟨1, false, "X", "reprX"⟩], sensors := [], debug := false,
    loglevel := none, restart_count := 1 }

/-- Concrete stop flag used to witness C9: flips (monotonically) at
time 3. -/
def flagC9 : Nat → Bool := fun t => 3 ≤ t

/-- Witness for C9 at a concrete controller, flag and fuel. -/
theorem stats_reporter_exits_on_stop_flag_witness :
    ((∀ a b : Nat, a ≤ b → flagC9 a = true → flagC9 b = true)
      ∧ flagC9 3 = true ∧ 3 - 0 < 4)
    ∧ ((statsRun workerC9 flagC9 4 0).2 = true
      ∧ (∀ p ∈ (statsRun workerC9 flagC9 4 0).1, p.1 < 3 + 5 ∧ p.2 = statsLine workerC9)
      ∧ (∀ f t, flagC9 t = true → (statsRun workerC9 flagC9 f t).1 = [])) :=
  ⟨⟨fun a b hab ha => by simp only [flagC9, decide_eq_true_eq] at ha ⊢; omega,
    by decide, by decide⟩,
    stats_reporter_exits_on_stop_flag workerC9 flagC9 4 0 3
      (fun a b hab ha => by simp only [flagC9, decide_eq_true_eq] at ha ⊢; omega)
      (by decide) (by decide)⟩

lemma setupLogging_not_in_sensor_starts (sensors : List Nat) :
    Event.setupLogging ∉ sensors.flatMap fun sensor =>
      awaited (Event.sensorMaybeStart · sensor) := by
  intro h
  simp only [awaited, List.mem_flatMap, List.mem_cons, List.not_mem_nil,
    or_false] at h
  obtain ⟨s, -, h | h⟩ := h <;> cases h

/-- **C10.** On the first start, logging is configured exactly when the
configured log level is truthy: for a controller whose log level was
explicitly supplied as `l`, the `setup_logging` call appears in the
`on_first_start` trace if and only if `l` is truthy — so a supplied
level equal to integer `0` (or the empty string) skips logging setup
entirely, because the gate tests the level's truthiness, not whether a
level was provided. -/
theorem loglevel_gate_tests_truthiness (w : Worker) (l : LogLevel)
    (hsup : w.loglevel = some l) :
    Event.setupLogging ∈ w.on_first_start ↔ l.truthy = true := by
  rw [Worker.on_first_start]
  constructor
  · intro hm
    rcases List.mem_append.1 hm with h | h
    · by_contra ht
      rw [hsup] at h
      simp only [pyTruthy] at h
      rw [if_neg] at h
      · exact List.not_mem_nil _ h
      · simpa using ht
    · exact absurd h (setupLogging_not_in_sensor_starts _)
  · intro ht
    refine List.mem_append.2 (Or.inl ?_)
    rw [hsup]
    simp [pyTruthy, ht]

/-- Concrete controller used to witness C10: log level supplied as the
integer `0`. -/
def workerC10 : Worker :=
  { services := [], sensors := [4], debug := false,
    loglevel := some (LogLevel.int 0), restart_count := 0 }

/-- Witness for C10: the level is supplied but falsy, and indeed the
gate (the iff) tests its truthiness. -/
theorem loglevel_gate_tests_truthiness_witness :
    workerC10.loglevel = some (LogLevel.int 0)
    ∧ (Event.setupLogging ∈ workerC10.on_first_start
        ↔ (LogLevel.int 0).truthy = true) :=
  ⟨rfl, loglevel_gate_tests_truthiness workerC10 (LogLevel.int 0) rfl⟩

end FaustWorker
